import Mathlib

/-!
Shallow embedding of the function-calling adapter and run-polling loop of the
`openai_text_2_sql` repository (files `src/Assistant/openai_function_helper.py`
and `src/Assistant/openai_assistant_helper.py`), together with proofs about
the behaviour its specification describes.

Conventions of the embedding:
* Python `Optional[...]` values become `Option`; Python truthiness of an
  optional dict/list (`None` and the empty collection are falsy) is the
  function `pyTruthy`.
* JSON argument payloads are modelled post-`json.loads` as association lists
  `List (String × PyValue)`; the empty list stands for a falsy raw payload.
* Raised Python exceptions become the `.error` branch of `Except`; the
  `traceback.format_exc()` text is environment-supplied, so it is passed in
  as an explicit `tb : String` argument.
* Remote-service state (run retrievals, file lookups) is supplied as explicit
  data: a trace of observed runs, and a `retrieve : String → String` map from
  file ids to filenames.
-/

namespace OpenAIText2Sql

/-- A JSON-decodable Python value, as found in a parsed arguments mapping. -/
inductive PyValue
  | vStr (s : String)
  | vInt (n : Int)
  | vBool (b : Bool)
  | vNone
deriving DecidableEq

/-- Python truthiness of an optional list-like value: `None` and the empty
collection are falsy, a non-empty collection is truthy. -/
def pyTruthy : Option (List α) → Bool
  | none => false
  | some l => !l.isEmpty

/-- `Property` from `openai_function_helper.py`: one declared parameter of a
function (name, type tag, required flag defaulting to true, description). -/
structure Property where
  name : String
  type : String
  required : Bool := true
  description : Option String := none
deriving DecidableEq

/-- The exceptions that `Function.run` can raise, plus the `TypeError` Python
itself raises when `**` expansion is applied to `None`, and any exception the
wrapped user function raises.  `InvalidParametersException` is declared in the
source but never raised. -/
inductive FunctionExc
  | missingParameters (message : String)
  | unexpectedParameters (message : String)
  | invalidParameters (message : String)
  | typeError (message : String)
  | userError (message : String)
deriving DecidableEq

/-- `str(e)` for the exceptions above: each carries exactly its message. -/
def FunctionExc.str : FunctionExc → String
  | .missingParameters m => m
  | .unexpectedParameters m => m
  | .invalidParameters m => m
  | .typeError m => m
  | .userError m => m

/-- `FunctionCall` from `openai_function_helper.py`: call id, function name,
optional parsed arguments mapping. -/
structure FunctionCall where
  call_id : String
  name : String
  arguments : Option (List (String × PyValue)) := none

/-- `Function` from `openai_function_helper.py`.  The abstract method `func`
is modelled as a field: it receives the parsed arguments mapping and either
returns a string result or raises (errors with) some message. -/
structure Function where
  name : String
  description : Option String := none
  parameters : Option (List Property) := none
  func : List (String × PyValue) → Except String String

/-- The final `self.func(**function_call.arguments)` step of `Function.run`:
`**None` raises a `TypeError`; otherwise the user function runs and may
itself raise. -/
def Function.invoke (f : Function) (call : FunctionCall) : Except FunctionExc String :=
  match call.arguments with
  | none => .error (.typeError "argument after ** must be a mapping, not NoneType")
  | some args =>
    match f.func args with
    | .ok r => .ok r
    | .error m => .error (.userError m)

/-- `Function.run` (lines 146–173 of `openai_function_helper.py`): the three
sequential raise-checks followed by invocation.  Each Python `if ...: raise`
becomes an `.error` branch taken in the same order. -/
def Function.run (f : Function) (call : FunctionCall) : Except FunctionExc String :=
  if !pyTruthy call.arguments && pyTruthy f.parameters then
    .error (.missingParameters "Missing parameters")
  else if pyTruthy call.arguments && !pyTruthy f.parameters then
    .error (.unexpectedParameters "Unexpected parameters")
  else
    match f.parameters with
    | some ps =>
      if !ps.isEmpty then
        let argKeys := (call.arguments.getD []).map Prod.fst
        let missing := (ps.filter fun p => p.required && !argKeys.contains p.name).map Property.name
        if !missing.isEmpty then
          .error (.missingParameters ("Missing parameter(s): " ++ String.intercalate ", " missing))
        else
          f.invoke call
      else
        f.invoke call
    | none => f.invoke call

/-- `Function.run_catch_exceptions` (lines 175–188): run, and turn any raised
exception into the string `f'{e}\n{traceback.format_exc()}'`.  The traceback
text `tb` is environment-supplied. -/
def Function.runCatchExceptions (f : Function) (call : FunctionCall) (tb : String) : String :=
  match f.run call with
  | .ok r => r
  | .error e => e.str ++ "\n" ++ tb

/-- The `parameters` block of the wire schema `Function.to_dict` emits:
`type`, a name-keyed properties mapping (each value `(type, description)`),
and the required-names list. -/
structure ParametersSchema where
  type : String
  properties : List (String × (String × Option String))
  required : List String
deriving DecidableEq

/-- The full dictionary `Function.to_dict` returns. -/
structure FunctionSchema where
  name : String
  description : Option String
  parameters : ParametersSchema
deriving DecidableEq

/-- One insertion into a Python dict: an existing key keeps its position and
gets the new value, a new key is appended. -/
def pyDictInsert (d : List (String × β)) (k : String) (v : β) : List (String × β) :=
  if d.any (fun kv => kv.1 == k) then
    d.map (fun kv => if kv.1 == k then (k, v) else kv)
  else
    d ++ [(k, v)]

/-- A Python dict comprehension over a key-value list: left-to-right
insertion with `pyDictInsert` semantics. -/
def pyDictOfList (l : List (String × β)) : List (String × β) :=
  l.foldl (fun d kv => pyDictInsert d kv.1 kv.2) []

/-- `Function.to_dict` (lines 98–144 of `openai_function_helper.py`). -/
def Function.toDict (f : Function) : FunctionSchema :=
  match f.parameters with
  | none =>
    { name := f.name
      description := f.description
      parameters := { type := "object", properties := [], required := [] } }
  | some ps =>
    { name := f.name
      description := f.description
      parameters :=
        { type := "object"
          properties := pyDictOfList (ps.map fun p => (p.name, (p.type, p.description)))
          required := (ps.filter Property.required).map Property.name } }

/-- One pending tool call from a run's `required_action.submit_tool_outputs`
payload: `tool.id`, `tool.function.name`, and `tool.function.arguments` after
`json.loads` (the empty list when the raw arguments string is falsy, matching
the `function_arguments = {}` branch of `create_tool_outputs`). -/
structure ToolCall where
  id : String
  functionName : String
  functionArguments : List (String × PyValue)
deriving DecidableEq

/-- The outputs `AIAssistant.create_tool_outputs` appends while handling one
tool call (lines 188–226 of `openai_assistant_helper.py`): one output per
registered function whose name matches (the inner loop does not break), and
the `"Function {name} not found"` output afterwards when none matched.  Each
output is the pair `(tool_call_id, output)`. -/
def toolOutputsFor (functions : List Function) (tb : String) (t : ToolCall) :
    List (String × String) :=
  ((functions.filter fun f => f.name == t.functionName).map fun f =>
    (t.id, f.runCatchExceptions
      { call_id := t.id, name := t.functionName, arguments := some t.functionArguments } tb))
  ++ (if functions.any (fun f => f.name == t.functionName) then []
      else [(t.id, "Function " ++ t.functionName ++ " not found")])

/-- `AIAssistant.create_tool_outputs` (lines 174–227): the outer loop over the
run's pending tool calls, accumulating `toolOutputsFor` each. -/
def createToolOutputs (functions : List Function) (tb : String) :
    List ToolCall → List (String × String)
  | [] => []
  | t :: ts => toolOutputsFor functions tb t ++ createToolOutputs functions tb ts

/-- What a message annotation references: a file citation (with its quoted
excerpt) or a file path, the two attributes `format_message` inspects. -/
inductive AnnotationRef
  | fileCitation (quote : String) (file_id : String)
  | filePath (file_id : String)
deriving DecidableEq

/-- One annotation of a message: the inline span text and its reference. -/
structure Annotation where
  text : String
  ref : AnnotationRef
deriving DecidableEq

/-- The text block of a message: its value and its annotations, the data
`format_message` works on. -/
structure MessageContent where
  value : String
  annotations : List Annotation
deriving DecidableEq

/-- Python `str.replace` on character lists: non-overlapping left-to-right
replacement of every occurrence of `pat` by `rep`, with a fuel argument to
make the recursion structural (fuel one per examined character suffices; the
caller passes the input length).  An empty `pat` leaves the list unchanged
(the annotation spans replaced in the source are never empty). -/
def replaceList (pat rep : List Char) : Nat → List Char → List Char
  | 0, l => l
  | _ + 1, [] => []
  | n + 1, c :: cs =>
    if !pat.isEmpty && pat.isPrefixOf (c :: cs) then
      rep ++ replaceList pat rep n ((c :: cs).drop pat.length)
    else
      c :: replaceList pat rep n cs

/-- Python `value.replace(pat, rep)` on strings. -/
def pyReplace (s pat rep : String) : String :=
  ⟨replaceList pat.toList rep.toList s.toList.length s.toList⟩

/-- The citation line `format_message` appends for the annotation at index
`i`: `f"[{index}] {quote} from {filename}"` for a file citation,
`f"[{index}] file: {filename} is downloaded"` for a file path.  `retrieve`
maps a file id to the filename `client.files.retrieve` reports. -/
def citationLine (retrieve : String → String) (i : Nat) (a : Annotation) : String :=
  match a.ref with
  | .fileCitation quote fid => "[" ++ toString i ++ "] " ++ quote ++ " from " ++ retrieve fid
  | .filePath fid => "[" ++ toString i ++ "] file: " ++ retrieve fid ++ " is downloaded"

/-- The `for index, annotation in enumerate(annotations)` loop of
`format_message` (lines 340–354): threads the message value through the
replacements and collects the citation lines in order.  The `create_file`
side effect of the file-path branch writes a local file and does not affect
the returned string. -/
def formatLoop (retrieve : String → String) :
    Nat → String → List Annotation → String × List String
  | _, value, [] => (value, [])
  | i, value, a :: rest =>
    let value' := pyReplace value a.text (" [" ++ toString i ++ "]")
    let rec_result := formatLoop retrieve (i + 1) value' rest
    (rec_result.1, citationLine retrieve i a :: rec_result.2)

/-- `AIAssistant.format_message` (lines 324–357): run the annotation loop,
then `message_content.value += "\n" + "\n".join(citations)`. -/
def formatMessage (retrieve : String → String) (m : MessageContent) : String :=
  let r := formatLoop retrieve 0 m.value m.annotations
  r.1 ++ "\n" ++ String.intercalate "\n" r.2

/-- One observation of the remote run, as returned by a retrieve or a
submit-tool-outputs call: its status string, its `last_error` rendering, and
the pending tool calls of its `required_action` payload. -/
structure RunObs where
  status : String
  lastError : String
  toolCalls : List ToolCall
deriving DecidableEq

/-- `AIAssistant.get_required_functions_names` (lines 229–242): collects
`tool.function` — the whole function object, i.e. its name and arguments —
for every pending tool call of the run. -/
def getRequiredFunctionsNames (r : RunObs) : List (String × List (String × PyValue)) :=
  r.toolCalls.map fun t => (t.functionName, t.functionArguments)

/-- Outcome of the polling loop of `create_response`: normal exit on
`completed`, a raised `RuntimeError` carrying the failure message on
`failed`, a raised `RuntimeError` carrying the pending function objects on
`expired`, or exhaustion of the supplied trace of remote observations. -/
inductive PollResult
  | completed
  | failed (message : String)
  | expired (pending : List (String × List (String × PyValue)))
  | outOfTrace
deriving DecidableEq

/-- The `while run.status != "completed"` loop of `AIAssistant.create_response`
(lines 408–429).  `r` is the run currently held by the loop variable; `trace`
supplies the successive remote answers, one consumed per retrieve and per
submit-tool-outputs call.  On `failed` the code raises
`RuntimeError(f"Run failed with the following error {run.last_error}")`; on
`expired` it raises a `RuntimeError` embedding
`get_required_functions_names(run)`; both raises escape the loop, which the
model renders as the terminal results `.failed` and `.expired`.  On
`requires_action` the code submits `create_tool_outputs(run)` and continues
with the run the submission returns. -/
def pollRun : RunObs → List RunObs → PollResult
  | r, [] => if r.status == "completed" then .completed else .outOfTrace
  | r, next :: rest =>
    if r.status == "completed" then .completed
    else if next.status == "failed" then
      .failed ("Run failed with the following error " ++ next.lastError)
    else if next.status == "expired" then
      .expired (getRequiredFunctionsNames next)
    else if next.status == "requires_action" then
      match rest with
      | [] => .outOfTrace
      | next2 :: rest2 => pollRun next2 rest2
    else
      pollRun next rest

/-- The value component of the annotation loop: the message text after the
span of each annotation has been replaced, left to right, by `" [i]"` with
`i` the annotation's position. -/
def replacedValue : Nat → String → List Annotation → String
  | _, v, [] => v
  | i, v, a :: rest => replacedValue (i + 1) (pyReplace v a.text (" [" ++ toString i ++ "]")) rest

/-- Fixture: the `get_db_schema` function registered by `run_query.py`, with
its local SQLite body abstracted to a pure result. -/
def getDBSchemaSpec : Function :=
  { name := "get_db_schema"
    description := some "Get the schema of the database"
    parameters := some
      [{ name := "sql_path", type := "string", required := true,
         description := some "The path to the SQLite database" }]
    func := fun _ => .ok "" }

/-- Fixture: the `run_sql_query` function registered by `run_query.py`. -/
def runSQLQuerySpec : Function :=
  { name := "run_sql_query"
    description := some "Run a SQL query on the database"
    parameters := some
      [{ name := "query", type := "string", required := true,
         description := some "The SQL query to run" },
       { name := "database", type := "string", required := true,
         description := some "The database to run the query on" }]
    func := fun _ => .ok "" }

/-- Fixture: a function declaring no parameters. -/
def echoFunction : Function := { name := "echo", func := fun _ => .ok "ok" }

/-- Fixture: a function with one required parameter named `x`. -/
def missingXFunction : Function :=
  { name := "f", parameters := some [{ name := "x", type := "string" }],
    func := fun _ => .ok "r" }

/-- Fixture: a call to `f` whose arguments mapping is present but empty. -/
def emptyArgsCall : FunctionCall := { call_id := "call-1", name := "f", arguments := some [] }

/-- Fixture: a call to `f` supplying only an undeclared argument `z`. -/
def partialArgsCall : FunctionCall :=
  { call_id := "call-2", name := "f", arguments := some [("z", PyValue.vInt 1)] }

/-- Fixture: a file resolver mapping every file id to `doc.txt`. -/
def docRetrieve : String → String := fun _ => "doc.txt"

/-- Fixture: an annotation whose span is the whole text `A claim.`, citing
`source text` from a file. -/
def claimAnn : Annotation := { text := "A claim.", ref := .fileCitation "source text" "file-1" }

/-- Fixture: the message of testable property 8 of the specification. -/
def claimMsg : MessageContent := { value := "A claim.", annotations := [claimAnn] }

lemma pyDictInsert_foldl_of_nodup {β : Type} :
    ∀ (l acc : List (String × β)), (((acc ++ l).map Prod.fst).Nodup) →
      List.foldl (fun d kv => pyDictInsert d kv.1 kv.2) acc l = acc ++ l := by
  intro l
  induction l with
  | nil => intro acc _; simp
  | cons kv rest ih =>
    intro acc h
    have hk : kv.1 ∉ acc.map Prod.fst := by
      rw [List.map_append, List.nodup_append] at h
      intro hmem
      exact h.2.2 hmem (by simp)
    have hins : pyDictInsert acc kv.1 kv.2 = acc ++ [kv] := by
      have hany : acc.any (fun x => x.1 == kv.1) = false := by
        rw [List.any_eq_false]
        intro x hx
        simp only [beq_iff_eq]
        intro hEq
        exact hk (hEq ▸ List.mem_map_of_mem Prod.fst hx)
      simp [pyDictInsert, hany]
    have h' : (((acc ++ [kv]) ++ rest).map Prod.fst).Nodup := by
      rwa [List.append_assoc, List.singleton_append]
    calc List.foldl (fun d kv => pyDictInsert d kv.1 kv.2) acc (kv :: rest)
        = List.foldl (fun d kv => pyDictInsert d kv.1 kv.2) (acc ++ [kv]) rest := by
          simp [hins]
      _ = (acc ++ [kv]) ++ rest := ih (acc ++ [kv]) h'
      _ = acc ++ kv :: rest := by simp

lemma pyDictOfList_eq_of_nodup {β : Type} (l : List (String × β))
    (h : (l.map Prod.fst).Nodup) : pyDictOfList l = l := by
  have := pyDictInsert_foldl_of_nodup l [] (by simpa using h)
  simpa [pyDictOfList] using this

lemma toolOutputsFor_map_fst (functions : List Function) (tb : String) (t : ToolCall)
    (hN : (functions.map Function.name).Nodup) :
    (toolOutputsFor functions tb t).map Prod.fst = [t.id] := by
  induction functions with
  | nil => simp [toolOutputsFor]
  | cons f fs ih =>
    rw [List.map_cons, List.nodup_cons] at hN
    by_cases hf : f.name = t.functionName
    · have hrest : fs.filter (fun g => g.name == t.functionName) = [] := by
        rw [List.filter_eq_nil_iff]
        intro g hg
        simp only [beq_iff_eq]
        intro hEq
        exact hN.1 (by rw [hf, ← hEq]; exact List.mem_map_of_mem Function.name hg)
      simp [toolOutputsFor, hf, hrest]
    · have hstep : (f :: fs).filter (fun g => g.name == t.functionName) =
          fs.filter (fun g => g.name == t.functionName) := by
        simp [List.filter_cons, hf]
      have hany : (f :: fs).any (fun g => g.name == t.functionName) =
          fs.any (fun g => g.name == t.functionName) := by
        simp [List.any_cons, hf]
      have := ih hN.2
      simpa [toolOutputsFor, hstep, hany] using this

lemma createToolOutputs_map_fst (functions : List Function) (tb : String)
    (calls : List ToolCall) (hN : (functions.map Function.name).Nodup) :
    (createToolOutputs functions tb calls).map Prod.fst = calls.map ToolCall.id := by
  induction calls with
  | nil => simp [createToolOutputs]
  | cons t ts ih =>
    simp [createToolOutputs, List.map_append, toolOutputsFor_map_fst functions tb t hN, ih]

lemma mem_createToolOutputs_of_mem (functions : List Function) (tb : String)
    {t : ToolCall} {calls : List ToolCall} (hmem : t ∈ calls)
    {out : String × String} (hout : out ∈ toolOutputsFor functions tb t) :
    out ∈ createToolOutputs functions tb calls := by
  induction calls with
  | nil => cases hmem
  | cons c cs ih =>
    rcases List.mem_cons.mp hmem with h | h
    · subst h
      exact List.mem_append.mpr (Or.inl hout)
    · exact List.mem_append.mpr (Or.inr (ih h))

lemma formatLoop_eq (retrieve : String → String) (l : List Annotation) :
    ∀ (i : Nat) (v : String),
      formatLoop retrieve i v l =
        (replacedValue i v l, (l.enumFrom i).map fun ia => citationLine retrieve ia.1 ia.2) := by
  induction l with
  | nil => intro i v; simp [formatLoop, replacedValue, List.enumFrom]
  | cons a rest ih =>
    intro i v
    simp [formatLoop, replacedValue, List.enumFrom, ih]

/-- C1 (counterexample): for the spec `missingXFunction`, which requires the
parameter `x`, a call whose arguments mapping is empty does NOT fail with an
error naming `x`: the first check of `Function.run` fires and raises the
generic `MissingParametersException("Missing parameters")`, whose message
contains no `x` at all; `run_catch_exceptions` converts it to the string
`"Missing parameters\n" ++ traceback`. -/
theorem run_empty_arguments_generic_message :
    missingXFunction.run emptyArgsCall = .error (.missingParameters "Missing parameters") ∧
    missingXFunction.runCatchExceptions emptyArgsCall "trace" = "Missing parameters\ntrace" ∧
    ("Missing parameters".toList.contains 'x') = false :=
  ⟨rfl, rfl, by decide⟩

/-- C1 (amended): when a call's arguments mapping is present and non-empty but
misses required parameters, `Function.run` fails with `MissingParameters`
naming exactly the missing required parameters, comma-joined in declaration
order; when the arguments mapping is absent or empty and the spec declares at
least one parameter, it fails earlier with the generic message
`"Missing parameters"` that names no parameter.  In both cases
`run_catch_exceptions` converts the failure to a string output rather than
raising it. -/
theorem run_missing_parameters_spec
    (f : Function) (ps : List Property) (call : FunctionCall)
    (args : List (String × PyValue)) (tb : String)
    (hps : f.parameters = some ps)
    (hargs : call.arguments = some args)
    (hargsNE : args ≠ [])
    (hmiss : (ps.filter fun p => p.required && !((args.map Prod.fst).contains p.name)).map
      Property.name ≠ []) :
    f.run call = .error (.missingParameters ("Missing parameter(s): " ++
      String.intercalate ", "
        ((ps.filter fun p => p.required && !((args.map Prod.fst).contains p.name)).map
          Property.name))) ∧
    f.runCatchExceptions call tb = ("Missing parameter(s): " ++
      String.intercalate ", "
        ((ps.filter fun p => p.required && !((args.map Prod.fst).contains p.name)).map
          Property.name)) ++ "\n" ++ tb ∧
    (∀ call2 : FunctionCall, call2.arguments = none ∨ call2.arguments = some [] →
      f.run call2 = .error (.missingParameters "Missing parameters") ∧
      f.runCatchExceptions call2 tb = "Missing parameters" ++ "\n" ++ tb) := by
  have hpsne : ps ≠ [] := by
    intro h
    subst h
    simp at hmiss
  have hargsT : pyTruthy call.arguments = true := by
    rw [hargs]
    cases args with
    | nil => exact absurd rfl hargsNE
    | cons a as => rfl
  have hpsT : pyTruthy f.parameters = true := by
    rw [hps]
    cases ps with
    | nil => exact absurd rfl hpsne
    | cons p ps' => rfl
  have hpsE : ps.isEmpty = false := by
    cases ps with
    | nil => exact absurd rfl hpsne
    | cons p ps' => rfl
  have hmissE : ((ps.filter fun p => p.required && !((args.map Prod.fst).contains p.name)).map
      Property.name).isEmpty = false := by
    rcases h : (ps.filter fun p => p.required && !((args.map Prod.fst).contains p.name)).map
      Property.name with _ | ⟨m, ms⟩
    · exact absurd h hmiss
    · rw [h]
      rfl
  have hrun : f.run call = .error (.missingParameters ("Missing parameter(s): " ++
      String.intercalate ", "
        ((ps.filter fun p => p.required && !((args.map Prod.fst).contains p.name)).map
          Property.name))) := by
    unfold Function.run
    rw [if_neg (by rw [hargsT, hpsT]; decide)]
    rw [if_neg (by rw [hargsT, hpsT]; decide)]
    rw [hps, hargs]
    dsimp only
    simp only [Option.getD_some]
    rw [if_pos (by rw [hpsE]; rfl)]
    rw [if_pos (by rw [hmissE]; rfl)]
  refine ⟨hrun, by simp [Function.runCatchExceptions, hrun, FunctionExc.str, String.append_assoc], ?_⟩
  intro call2 h2
  have hargs2F : pyTruthy call2.arguments = false := by
    rcases h2 with h2 | h2 <;> rw [h2] <;> rfl
  have hrun2 : f.run call2 = .error (.missingParameters "Missing parameters") := by
    unfold Function.run
    rw [if_pos (by rw [hargs2F, hpsT]; rfl)]
  exact ⟨hrun2, by simp [Function.runCatchExceptions, hrun2, FunctionExc.str]⟩

/-- C1 (witness): instantiates the amended theorem at `missingXFunction`
(required parameter `x`) and a call supplying only the undeclared key `z`:
the missing list is exactly `["x"]` and both the raised message and the
converted string output name `x`. -/
theorem run_missing_parameters_spec_witness :
    missingXFunction.run partialArgsCall =
      .error (.missingParameters "Missing parameter(s): x") ∧
    missingXFunction.runCatchExceptions partialArgsCall "trace" =
      "Missing parameter(s): x\ntrace" := by
  have h := run_missing_parameters_spec missingXFunction
    [{ name := "x", type := "string" }] partialArgsCall
    [("z", PyValue.vInt 1)] "trace" rfl rfl (by decide) (by decide)
  exact ⟨h.1, h.2.1⟩

/-- C3: `run_catch_exceptions` never propagates an exception: for every
function, call and traceback text, it either returns the successful result of
`Function.run`, or — whatever failure `run` raised, the Missing/Unexpected/
InvalidParameters family included — it returns the string made of the error's
message, a newline, and the stack trace, as the tool output. -/
theorem runCatchExceptions_never_raises (f : Function) (call : FunctionCall) (tb : String) :
    (∃ r, f.run call = .ok r ∧ f.runCatchExceptions call tb = r) ∨
    (∃ e, f.run call = .error e ∧
      f.runCatchExceptions call tb = FunctionExc.str e ++ "\n" ++ tb) := by
  cases h : f.run call with
  | ok r => exact Or.inl ⟨r, rfl, by simp [Function.runCatchExceptions, h]⟩
  | error e => exact Or.inr ⟨e, rfl, by simp [Function.runCatchExceptions, h]⟩

/-- C6: for a `FunctionSpec` whose parameter list is absent (`None`) or empty,
`to_dict` emits a parameters block with type `"object"`, empty properties and
empty required list — the block itself is always present. -/
theorem toDict_empty_parameters (f : Function)
    (h : f.parameters = none ∨ f.parameters = some []) :
    f.toDict.parameters = { type := "object", properties := [], required := [] } ∧
    f.toDict.name = f.name ∧ f.toDict.description = f.description := by
  rcases h with h | h <;> simp [Function.toDict, h, pyDictOfList, pyDictInsert]

/-- C6 (witness): `echoFunction` declares no parameters and its schema still
carries the well-formed empty parameters block. -/
theorem toDict_empty_parameters_witness :
    echoFunction.toDict.parameters = { type := "object", properties := [], required := [] } :=
  (toDict_empty_parameters echoFunction (Or.inl rfl)).1

/-- C7: for a `FunctionSpec` with a non-empty parameter list whose names are
distinct, `to_dict` emits one property entry per parameter, keyed by its name
and carrying its type tag and description in declaration order, and the
required array is exactly the names of the required parameters in declaration
order. -/
theorem toDict_nonempty_parameters (f : Function) (ps : List Property)
    (hps : f.parameters = some ps) (_hne : ps ≠ [])
    (hnd : (ps.map Property.name).Nodup) :
    f.toDict.parameters.type = "object" ∧
    f.toDict.parameters.properties = ps.map (fun p => (p.name, (p.type, p.description))) ∧
    f.toDict.parameters.required = (ps.filter Property.required).map Property.name := by
  have hkeys : ((ps.map fun p => (p.name, (p.type, p.description))).map Prod.fst).Nodup := by
    rw [List.map_map]
    exact hnd
  refine ⟨?_, ?_, ?_⟩ <;>
    simp [Function.toDict, hps, pyDictOfList_eq_of_nodup _ hkeys]

/-- C7 (witness): the schema of `run_sql_query` has one property per declared
parameter and requires exactly `query` and `database`, in declaration
order. -/
theorem toDict_nonempty_parameters_witness :
    runSQLQuerySpec.toDict.parameters.properties =
      [("query", ("string", some "The SQL query to run")),
       ("database", ("string", some "The database to run the query on"))] ∧
    runSQLQuerySpec.toDict.parameters.required = ["query", "database"] := by
  have h := toDict_nonempty_parameters runSQLQuerySpec
    [{ name := "query", type := "string", required := true,
       description := some "The SQL query to run" },
     { name := "database", type := "string", required := true,
       description := some "The database to run the query on" }]
    rfl (by decide) (by decide)
  exact ⟨h.2.1, h.2.2⟩

/-- C8: for a `FunctionSpec` declaring zero parameters (`None` or the empty
list, both falsy), a call whose arguments mapping is present and non-empty
fails with `UnexpectedParameters`, and `run_catch_exceptions` converts that
failure to a string output rather than raising it. -/
theorem run_unexpected_parameters
    (f : Function) (call : FunctionCall) (args : List (String × PyValue)) (tb : String)
    (hparams : f.parameters = none ∨ f.parameters = some [])
    (hargs : call.arguments = some args) (hne : args ≠ []) :
    f.run call = .error (.unexpectedParameters "Unexpected parameters") ∧
    f.runCatchExceptions call tb = "Unexpected parameters" ++ "\n" ++ tb := by
  have hargsT : pyTruthy call.arguments = true := by
    rw [hargs]
    cases args with
    | nil => exact absurd rfl hne
    | cons a as => rfl
  have hpsF : pyTruthy f.parameters = false := by
    rcases hparams with h | h <;> rw [h] <;> rfl
  have hrun : f.run call = .error (.unexpectedParameters "Unexpected parameters") := by
    unfold Function.run
    rw [hargsT, hpsF]
    simp
  exact ⟨hrun, by simp [Function.runCatchExceptions, hrun, FunctionExc.str]⟩

/-- C8 (witness): `echoFunction` declares no parameters; calling it with the
arguments mapping `{"a": 1}` yields the `UnexpectedParameters` failure and the
converted string output. -/
theorem run_unexpected_parameters_witness :
    echoFunction.run
      { call_id := "c3", name := "echo", arguments := some [("a", PyValue.vInt 1)] } =
      .error (.unexpectedParameters "Unexpected parameters") ∧
    echoFunction.runCatchExceptions
      { call_id := "c3", name := "echo", arguments := some [("a", PyValue.vInt 1)] } "trace" =
      "Unexpected parameters\ntrace" :=
  run_unexpected_parameters echoFunction
    { call_id := "c3", name := "echo", arguments := some [("a", PyValue.vInt 1)] }
    [("a", PyValue.vInt 1)] "trace" (Or.inl rfl) rfl (by decide)

/-- C2: when the registered function names are distinct (the data model calls
the name a unique identifier), `create_tool_outputs` produces exactly one
result per pending tool call: the batch's `tool_call_id`s are exactly the
pending `call_id`s in order, the batch has the same length as the pending
list, and — the remote-supplied `call_id`s being unique per pending call —
every pending `call_id` appears exactly once in the batch. -/
theorem createToolOutputs_one_result_per_call
    (functions : List Function) (tb : String) (calls : List ToolCall)
    (hN : (functions.map Function.name).Nodup) :
    (createToolOutputs functions tb calls).map Prod.fst = calls.map ToolCall.id ∧
    (createToolOutputs functions tb calls).length = calls.length ∧
    ((calls.map ToolCall.id).Nodup →
      ∀ t ∈ calls, ((createToolOutputs functions tb calls).map Prod.fst).count t.id = 1) := by
  have hmap := createToolOutputs_map_fst functions tb calls hN
  refine ⟨hmap, ?_, ?_⟩
  · have := congrArg List.length hmap
    simpa using this
  · intro hids t ht
    rw [hmap]
    exact List.count_eq_one_of_mem hids (List.mem_map_of_mem ToolCall.id ht)

/-- C2 (witness): one registered function, two pending calls (one matching,
one unknown): the batch carries exactly the two call ids, in order. -/
theorem createToolOutputs_one_result_per_call_witness :
    (createToolOutputs [echoFunction] "trace"
      [⟨"c1", "echo", []⟩, ⟨"c2", "nope", []⟩]).map Prod.fst = ["c1", "c2"] ∧
    (createToolOutputs [echoFunction] "trace"
      [⟨"c1", "echo", []⟩, ⟨"c2", "nope", []⟩]).length = 2 := by
  have h := createToolOutputs_one_result_per_call [echoFunction] "trace"
    [⟨"c1", "echo", []⟩, ⟨"c2", "nope", []⟩] (by decide)
  exact ⟨h.1, h.2.1⟩

/-- C4: a pending tool call whose function name matches no registered
function contributes exactly the single output
`"Function {name} not found"` under its own call id, and that output is part
of the batch `create_tool_outputs` returns for the whole cycle — the cycle is
not aborted (the function is total and, per C2, still yields one output per
pending call). -/
theorem unknown_function_not_found
    (functions : List Function) (tb : String) (t : ToolCall) (calls : List ToolCall)
    (hmem : t ∈ calls)
    (hno : ∀ f ∈ functions, f.name ≠ t.functionName) :
    toolOutputsFor functions tb t = [(t.id, "Function " ++ t.functionName ++ " not found")] ∧
    (t.id, "Function " ++ t.functionName ++ " not found") ∈
      createToolOutputs functions tb calls := by
  have hfilter : functions.filter (fun f => f.name == t.functionName) = [] := by
    rw [List.filter_eq_nil_iff]
    intro f hf
    simp only [beq_iff_eq]
    exact hno f hf
  have hany : functions.any (fun f => f.name == t.functionName) = false := by
    rw [List.any_eq_false]
    intro f hf
    simp only [beq_iff_eq]
    exact hno f hf
  have hsingle : toolOutputsFor functions tb t =
      [(t.id, "Function " ++ t.functionName ++ " not found")] := by
    simp [toolOutputsFor, hfilter, hany]
  exact ⟨hsingle, mem_createToolOutputs_of_mem functions tb hmem
    (by rw [hsingle]; exact List.mem_singleton_self _)⟩

/-- C4 (witness): dispatching a call named `missing_fn` against a registry
holding only `echo` yields exactly the benign not-found string output. -/
theorem unknown_function_not_found_witness :
    toolOutputsFor [echoFunction] "trace" ⟨"c9", "missing_fn", []⟩ =
      [("c9", "Function missing_fn not found")] ∧
    ("c9", "Function missing_fn not found") ∈
      createToolOutputs [echoFunction] "trace" [⟨"c9", "missing_fn", []⟩] :=
  unknown_function_not_found [echoFunction] "trace" ⟨"c9", "missing_fn", []⟩
    [⟨"c9", "missing_fn", []⟩] (by decide) (by decide)

/-- C5 (counterexample): for the text `A claim.` with one annotation whose
span is `A claim.` (a file citation quoting `source text` from `doc.txt`),
`format_message` replaces the whole span — final period included — with
` [0]`, so the output is `" [0]\n[0] source text from doc.txt"` and NOT the
claimed `" [0].\n[0] source text from doc.txt"`. -/
theorem formatMessage_full_span_counterexample :
    formatMessage docRetrieve claimMsg = " [0]\n[0] source text from doc.txt" ∧
    formatMessage docRetrieve claimMsg ≠ " [0].\n[0] source text from doc.txt" := by
  constructor
  · decide
  · decide

/-- C5 (amended): `format_message` replaces each annotation's span in the
text by `" [i]"` (a space, then the bracketed index), indices assigned
positionally in the order the annotations are returned, then appends one
trailing citation line per annotation: `"[i] {quote} from {filename}"` for a
content citation and `"[i] file: {filename} is downloaded"` for a file
reference.  In particular, for the text `A claim.` with one annotation
spanning the whole of `A claim.`, the replaced text is ` [0]` (the period
lies inside the replaced span) followed by the trailing citation line. -/
theorem formatMessage_spec (retrieve : String → String) (m : MessageContent) :
    formatMessage retrieve m =
      replacedValue 0 m.value m.annotations ++ "\n" ++
        String.intercalate "\n"
          (m.annotations.enum.map fun ia => citationLine retrieve ia.1 ia.2) ∧
    formatMessage docRetrieve claimMsg = " [0]\n[0] source text from doc.txt" := by
  constructor
  · rw [formatMessage, formatLoop_eq retrieve m.annotations 0 m.value]
    rfl
  · decide

/-- C9: when the polling loop of `create_response` holds a non-completed run
and the next retrieved run reports status `failed`, the loop ends with the
fatal `RuntimeError` whose message embeds the remote's `last_error`; when it
reports `expired`, the loop ends with the fatal `RuntimeError` embedding
`get_required_functions_names` — the pending `tool.function` objects, whose
first components are exactly the names of the still-pending functions.  Both
are terminal results of `pollRun`: the loop does not continue past them. -/
theorem pollRun_fatal_states (r next : RunObs) (rest : List RunObs)
    (hr : r.status ≠ "completed") :
    (next.status = "failed" →
      pollRun r (next :: rest) =
        .failed ("Run failed with the following error " ++ next.lastError)) ∧
    (next.status = "expired" →
      pollRun r (next :: rest) = .expired (getRequiredFunctionsNames next) ∧
      (getRequiredFunctionsNames next).map Prod.fst =
        next.toolCalls.map ToolCall.functionName) := by
  constructor
  · intro hnext
    rw [pollRun.eq_def]
    dsimp only
    rw [if_neg (by simpa using hr), if_pos (by rw [hnext]; decide)]
  · intro hnext
    refine ⟨?_, ?_⟩
    · rw [pollRun.eq_def]
      dsimp only
      rw [if_neg (by simpa using hr), if_neg (by rw [hnext]; decide),
        if_pos (by rw [hnext]; decide)]
    · simp [getRequiredFunctionsNames, List.map_map]

/-- C9 (witness): a queued run followed by a `failed` observation ends with
the fatal failure message; followed by an `expired` observation with one
pending `get_db_schema` call it ends with the fatal expiry naming that
function. -/
theorem pollRun_fatal_states_witness :
    pollRun ⟨"queued", "", []⟩ [⟨"failed", "boom", []⟩] =
      .failed "Run failed with the following error boom" ∧
    pollRun ⟨"queued", "", []⟩ [⟨"expired", "", [⟨"c1", "get_db_schema", []⟩]⟩] =
      .expired [("get_db_schema", [])] := by
  constructor
  · exact (pollRun_fatal_states ⟨"queued", "", []⟩ ⟨"failed", "boom", []⟩ []
      (by decide)).1 rfl
  · exact ((pollRun_fatal_states ⟨"queued", "", []⟩
      ⟨"expired", "", [⟨"c1", "get_db_schema", []⟩]⟩ [] (by decide)).2 rfl).1

/-- C10: `format_message` appends the newline before the joined citations
unconditionally: a message with zero annotations comes back as its original
text with a trailing newline appended — which is never the original text
unchanged. -/
theorem formatMessage_trailing_newline (retrieve : String → String) (v : String) :
    formatMessage retrieve { value := v, annotations := [] } = v ++ "\n" ∧
    v ++ "\n" ≠ v := by
  constructor
  · show v ++ "\n" ++ String.intercalate "\n" [] = v ++ "\n"
    simp [String.intercalate]
  · intro h
    have hlen := congrArg String.length h
    rw [String.length_append] at hlen
    have hone : ("\n").length = 1 := rfl
    rw [hone] at hlen
    omega

end OpenAIText2Sql
